/-
Verification of the digital-twin quantitative modeling stack.

Shallow embedding of the core numeric functions of the `digital_twin`
Python package.  Economic functions (NPV, IRR, risk-adjusted NPV) are pure
rational arithmetic and are embedded over `ℚ`; physics and degradation
functions involve `sin`/`exp` and are embedded over `ℝ`.  Python's
`np.random` draws are modelled by oracle functions supplied as parameters
(one draw per call, indexed by a running draw counter), so that the control
flow of the Monte Carlo code is captured exactly while the distributional
content of a draw stays abstract.
-/
import Mathlib

namespace DigitalTwin

/-! ## economics/roi.py -/

namespace Roi

/-- The discounted-sum loop of `calculate_npv`:
`for t, cashflow in enumerate(annual_cashflows, start=1): npv += cashflow / ((1 + discount_rate) ** t)`. -/
def npvFold (discount_rate : ℚ) : List ℚ → ℕ → ℚ
  | [], _ => 0
  | cf :: rest, t => cf / (1 + discount_rate) ^ t + npvFold discount_rate rest (t + 1)

/-- Embedding of `economics/roi.py::calculate_npv` (the body of `digital_twin/models.py::calculate_npv`
is character-for-character the same loop): `npv = -initial_investment` followed by the
discounted-sum loop starting at `t = 1`. -/
def calculate_npv (initial_investment : ℚ) (annual_cashflows : List ℚ)
    (discount_rate : ℚ) : ℚ :=
  -initial_investment + npvFold discount_rate annual_cashflows 1

/-- The derivative accumulator of `calculate_irr`:
`npv_derivative -= t * cf / ((1 + irr) ** (t + 1))` over `enumerate(annual_cashflows, start=1)`. -/
def npvDeriv (irr : ℚ) : List ℚ → ℕ → ℚ
  | [], _ => 0
  | cf :: rest, t => -((t : ℚ) * cf / (1 + irr) ^ (t + 1)) + npvDeriv irr rest (t + 1)

/-- The Newton-Raphson loop of `economics/roi.py::calculate_irr`.  Each pass recomputes
the NPV and its derivative at the current rate, returns the rate (flagged `true`) as soon
as `abs npv < 0.01`, and otherwise performs the update `irr - npv / npv_derivative`
guarded by a zero-derivative check.  Exhausting the iteration budget returns the current
rate flagged `false`. -/
def irrLoop (initial_investment : ℚ) (annual_cashflows : List ℚ) :
    ℚ → ℕ → ℚ × Bool
  | irr, 0 => (irr, false)
  | irr, n + 1 =>
    let npv := calculate_npv initial_investment annual_cashflows irr
    if |npv| < 1 / 100 then (irr, true)
    else
      let d := npvDeriv irr annual_cashflows 1
      irrLoop initial_investment annual_cashflows
        (if d ≠ 0 then irr - npv / d else irr) n

/-- Embedding of `economics/roi.py::calculate_irr`: Newton-Raphson from the seed `0.1`. -/
def calculate_irr (initial_investment : ℚ) (annual_cashflows : List ℚ)
    (max_iterations : ℕ) : ℚ :=
  (irrLoop initial_investment annual_cashflows (1 / 10) max_iterations).1

/-- Proposition that `calculate_irr` returned through its `abs(npv) < 0.01` stopping test
within the iteration budget (rather than by exhausting it). -/
def irrConverged (initial_investment : ℚ) (annual_cashflows : List ℚ)
    (max_iterations : ℕ) : Prop :=
  (irrLoop initial_investment annual_cashflows (1 / 10) max_iterations).2 = true

instance (I : ℚ) (CF : List ℚ) (n : ℕ) : Decidable (irrConverged I CF n) := by
  unfold irrConverged; infer_instance

/-- The certainty-equivalent discounting loop shared by both copies of
`calculate_risk_adjusted_npv`, over the zipped `(cashflow, variance)` pairs:
`adjusted_cf = cf * (1 - var**2 / 2)`, `adjusted_discount = discount_rate + risk_aversion * var`,
`npv_adj += adjusted_cf / ((1 + adjusted_discount) ** t)`. -/
def riskAdjustedFold (discount_rate risk_aversion : ℚ) : List (ℚ × ℚ) → ℕ → ℚ
  | [], _ => 0
  | (cf, var) :: rest, t =>
    cf * (1 - var ^ 2 / 2) / (1 + (discount_rate + risk_aversion * var)) ^ t
      + riskAdjustedFold discount_rate risk_aversion rest (t + 1)

/-- Embedding of `economics/roi.py::calculate_risk_adjusted_npv`: raises
`ValueError("Cashflows and variances must have same length")` when the two lists have
different lengths, and otherwise folds the certainty-equivalent discounting loop. -/
def calculate_risk_adjusted_npv (initial_investment : ℚ)
    (annual_cashflows cashflow_variances : List ℚ)
    (discount_rate risk_aversion : ℚ) : Except String ℚ :=
  if annual_cashflows.length ≠ cashflow_variances.length then
    .error "Cashflows and variances must have same length"
  else
    .ok (-initial_investment
      + riskAdjustedFold discount_rate risk_aversion
          (annual_cashflows.zip cashflow_variances) 1)

end Roi

/-! ## models/equations.py -/

namespace Equations

/-- Embedding of `models/equations.py::calculate_risk_adjusted_npv`: same certainty-equivalent loop
as the economics-module copy, but with **no** length guard — it iterates over
`zip(annual_cashflows, cashflow_variances)`, which silently truncates to the shorter
list, and always returns a number. -/
def calculate_risk_adjusted_npv (initial_investment : ℚ)
    (annual_cashflows cashflow_variances : List ℚ)
    (discount_rate risk_aversion : ℚ) : ℚ :=
  -initial_investment
    + Roi.riskAdjustedFold discount_rate risk_aversion
        (annual_cashflows.zip cashflow_variances) 1

end Equations

/-! ## digital_twin/models.py (top-level module) -/

namespace Models

/-- Constant `digital_twin/models.py::GRAVITY_ACCELERATION`. -/
def GRAVITY_ACCELERATION : ℝ := 9.81

/-- Constant `digital_twin/models.py::ROLLING_RESISTANCE_COEFF`. -/
def ROLLING_RESISTANCE_COEFF : ℝ := 0.006

/-- Constant `digital_twin/models.py::DEFAULT_DRAG_COEFFICIENT`. -/
def DEFAULT_DRAG_COEFFICIENT : ℝ := 1.0

/-- Embedding of `digital_twin/models.py::calculate_energy_consumption` with every parameter
explicit: `E_gravity + E_rolling + E_aero` where
`E_gravity = mass * GRAVITY_ACCELERATION * np.sin(grade) * distance`,
`E_rolling = rolling_resistance * mass * GRAVITY_ACCELERATION * distance`,
`E_aero = 0.5 * drag_coefficient * air_density * frontal_area * velocity**2 * distance`. -/
noncomputable def calculate_energy_consumption (mass grade distance velocity
    air_density frontal_area drag_coefficient rolling_resistance : ℝ) : ℝ :=
  mass * GRAVITY_ACCELERATION * Real.sin grade * distance
    + rolling_resistance * mass * GRAVITY_ACCELERATION * distance
    + 0.5 * drag_coefficient * air_density * frontal_area * velocity ^ 2 * distance

/-- Specialization of `calculate_energy_consumption` with its optional parameters at this module's
default values: `air_density=1.2`, `frontal_area=8.0`,
`drag_coefficient=DEFAULT_DRAG_COEFFICIENT`, `rolling_resistance=ROLLING_RESISTANCE_COEFF`. -/
noncomputable def calculate_energy_consumption_defaults
    (mass grade distance velocity : ℝ) : ℝ :=
  calculate_energy_consumption mass grade distance velocity 1.2 8.0
    DEFAULT_DRAG_COEFFICIENT ROLLING_RESISTANCE_COEFF

/-- Embedding of `digital_twin/models.py::calculate_battery_degradation`:
`initial_range * np.exp(-degradation_rate * years)` (default rate `0.106`). -/
noncomputable def calculate_battery_degradation
    (initial_range years degradation_rate : ℝ) : ℝ :=
  initial_range * Real.exp (-degradation_rate * years)

/-- Embedding of `digital_twin/models.py::calculate_npv` — the same `-I₀` plus discounted-sum
loop as the economics-module copy. -/
def calculate_npv (initial_investment : ℚ) (annual_cashflows : List ℚ)
    (discount_rate : ℚ) : ℚ :=
  -initial_investment + Roi.npvFold discount_rate annual_cashflows 1

/-- One entry of the `uncertainty_params` dict of
`digital_twin/models.py::monte_carlo_simulation`:
`{'type': 'normal'|'uniform', 'std': value, 'min': value, 'max': value}`,
with `std`/`min`/`max` optional (read through `dict.get` with defaults). -/
structure Uncertainty where
  type : String
  std : Option ℚ
  min : Option ℚ
  max : Option ℚ
deriving Repr, DecidableEq

/-- A parameter dict (`base_params` / `sim_params`): an association list from
parameter name to value. -/
abbrev ParamMap := List (String × ℚ)

/-- Python dict assignment `sim_params[param_name] = v` — replace the value at an
existing key, or add the key at the end. -/
def setParam : ParamMap → String → ℚ → ParamMap
  | [], key, v => [(key, v)]
  | (k, w) :: rest, key, v =>
    if k = key then (key, v) :: rest else (k, w) :: setParam rest key v

/-- The inner loop of `monte_carlo_simulation` over `uncertainty_params.items()`:
skip the parameter (`continue`) when its name is not in `base_params`; draw
`np.random.normal(base_value, std or 0.1*base_value)` when `type == 'normal'`;
draw `np.random.uniform(min or 0.8*base_value, max or 1.2*base_value)` when
`type == 'uniform'`; any other declared type matches neither branch and the
parameter is left untouched.  `normal`/`uniform` are the RNG oracles, fed the
running draw counter; each draw advances the counter. -/
def applyUncertainty (normal uniform : ℚ → ℚ → ℕ → ℚ) (base : ParamMap) :
    List (String × Uncertainty) → ParamMap → ℕ → ParamMap × ℕ
  | [], sim, k => (sim, k)
  | (param_name, unc) :: rest, sim, k =>
    match base.lookup param_name with
    | none => applyUncertainty normal uniform base rest sim k
    | some base_value =>
      if unc.type = "normal" then
        applyUncertainty normal uniform base rest
          (setParam sim param_name
            (normal base_value (unc.std.getD (1 / 10 * base_value)) k)) (k + 1)
      else if unc.type = "uniform" then
        applyUncertainty normal uniform base rest
          (setParam sim param_name
            (uniform (unc.min.getD (4 / 5 * base_value))
              (unc.max.getD (6 / 5 * base_value)) k)) (k + 1)
      else
        applyUncertainty normal uniform base rest sim k

/-- The trial loop of `monte_carlo_simulation`: each trial copies `base_params`,
perturbs it with `applyUncertainty`, and appends the resulting **parameter dict**
(not an NPV) to the results list.  The draw counter runs on across trials, as the
global NumPy RNG does. -/
def mcTrials (normal uniform : ℚ → ℚ → ℕ → ℚ) (base : ParamMap)
    (uncertainty : List (String × Uncertainty)) : ℕ → ℕ → List ParamMap
  | 0, _ => []
  | n + 1, k =>
    let step := applyUncertainty normal uniform base uncertainty base k
    step.1 :: mcTrials normal uniform base uncertainty n step.2

/-- Embedding of `digital_twin/models.py::monte_carlo_simulation`: runs `n_simulations` trials
and returns `np.array(results)` — the raw list of per-trial parameter dicts.
No NPV is computed and no summary statistics are produced. -/
def monte_carlo_simulation (normal uniform : ℚ → ℚ → ℕ → ℚ) (base_params : ParamMap)
    (uncertainty_params : List (String × Uncertainty)) (n_simulations : ℕ) :
    List ParamMap :=
  mcTrials normal uniform base_params uncertainty_params n_simulations 0

end Models

/-! ## physics/energy.py and core/constants.py -/

namespace Energy

/-- Constant `core/constants.py::AIR_DENSITY_SEA_LEVEL` — note: `1.225`, not the `1.2`
default of `digital_twin/models.py`. -/
def AIR_DENSITY_SEA_LEVEL : ℝ := 1.225

/-- Constant `core/constants.py::DEFAULT_FRONTAL_AREA`. -/
def DEFAULT_FRONTAL_AREA : ℝ := 8.0

/-- Embedding of `physics/energy.py::calculate_wheel_energy` with every parameter explicit —
the same three-term sum as `models.py::calculate_energy_consumption`
(constants `GRAVITY_ACCELERATION = 9.81`, `ROLLING_RESISTANCE_COEFF = 0.006`,
`DEFAULT_DRAG_COEFFICIENT = 1.0` agree between `core/constants.py` and `models.py`). -/
noncomputable def calculate_wheel_energy (mass grade distance velocity
    air_density frontal_area drag_coefficient rolling_resistance : ℝ) : ℝ :=
  mass * Models.GRAVITY_ACCELERATION * Real.sin grade * distance
    + rolling_resistance * mass * Models.GRAVITY_ACCELERATION * distance
    + 0.5 * drag_coefficient * air_density * frontal_area * velocity ^ 2 * distance

/-- Specialization of `calculate_wheel_energy` with its optional parameters at this module's defaults:
`air_density=AIR_DENSITY_SEA_LEVEL (1.225)`, `frontal_area=DEFAULT_FRONTAL_AREA`,
`drag_coefficient=DEFAULT_DRAG_COEFFICIENT`, `rolling_resistance=ROLLING_RESISTANCE_COEFF`. -/
noncomputable def calculate_wheel_energy_defaults
    (mass grade distance velocity : ℝ) : ℝ :=
  calculate_wheel_energy mass grade distance velocity AIR_DENSITY_SEA_LEVEL
    DEFAULT_FRONTAL_AREA Models.DEFAULT_DRAG_COEFFICIENT Models.ROLLING_RESISTANCE_COEFF

end Energy

/-! ## physics/degradation.py -/

namespace Degradation

/-- Constant `core/constants.py::BATTERY_DEGRADATION_RATE`. -/
def BATTERY_DEGRADATION_RATE : ℝ := 0.106

/-- Embedding of `physics/degradation.py::calculate_battery_degradation`:
`initial_capacity * np.exp(-degradation_rate * years)` — no clamping is applied. -/
noncomputable def calculate_battery_degradation
    (initial_capacity years degradation_rate : ℝ) : ℝ :=
  initial_capacity * Real.exp (-degradation_rate * years)

end Degradation

/-! ## core/models.py and core/validation.py -/

namespace Core

/-- Embedding of `core/models.py::VehicleSpecs` — a plain `@dataclass` with **no**
`__post_init__` and no constructor-time checks: any field values construct a
record.  Enum-typed identity fields are carried as strings; the numeric fields
are the ones the validator reads.  Dataclass defaults are reproduced by
`VehicleSpecs.make` below. -/
structure VehicleSpecs where
  name : String
  vehicle_type : String
  fuel_type : String
  technology_type : String
  mass_kg : ℚ
  frontal_area_m2 : ℚ
  drag_coefficient : ℚ
  rolling_resistance : ℚ
  max_range_km : ℚ
  max_payload_kg : ℚ
  max_speed_kmh : ℚ
  energy_efficiency : ℚ
  fuel_capacity : ℚ
  initial_cost : ℚ
  annual_operating_cost : ℚ
  residual_value_factor : ℚ
  co2_emission_factor : ℚ
  nox_emission_factor : ℚ
  pm_emission_factor : ℚ
  battery_degradation_rate : Option ℚ
  charging_power_kw : Option ℚ
  h2_tank_pressure_bar : Option ℚ
deriving Repr, DecidableEq

/-- The generated dataclass constructor with the field defaults of
`core/models.py` filled in: only the identity fields and `mass_kg` are
required; everything else takes its declared default.  It is total — the
dataclass machinery performs no validation. -/
def VehicleSpecs.make (name vehicle_type fuel_type technology_type : String)
    (mass_kg : ℚ) : VehicleSpecs :=
  { name := name
    vehicle_type := vehicle_type
    fuel_type := fuel_type
    technology_type := technology_type
    mass_kg := mass_kg
    frontal_area_m2 := 8.0
    drag_coefficient := 1.0
    rolling_resistance := 0.006
    max_range_km := 400.0
    max_payload_kg := 18000.0
    max_speed_kmh := 100.0
    energy_efficiency := 0.85
    fuel_capacity := 0
    initial_cost := 0
    annual_operating_cost := 0
    residual_value_factor := 0.20
    co2_emission_factor := 0
    nox_emission_factor := 0
    pm_emission_factor := 0
    battery_degradation_rate := none
    charging_power_kw := none
    h2_tank_pressure_bar := none }

/-- A `ValidationError` message of `core/validation.py`, kept structured: the
offending field's display name and value (and bounds, for range checks) —
exactly the data interpolated into the Python exception strings. -/
inductive Violation where
  | mustBePositive (field_name : String) (value : ℚ)
  | mustBeBetween (field_name : String) (min_val max_val value : ℚ)
deriving Repr, DecidableEq

/-- Embedding of `core/validation.py::validate_positive` as its caller sees it: the singleton
error list appended when `value <= 0`, else nothing (the `try/except` in
`validate_vehicle_specs` turns the raised `ValidationError` into a list entry). -/
def validate_positive (value : ℚ) (field_name : String) : List Violation :=
  if value ≤ 0 then [.mustBePositive field_name value] else []

/-- Embedding of `core/validation.py::validate_range`: error entry when
`not (min_val <= value <= max_val)`. -/
def validate_range (value : ℚ) (field_name : String) (min_val max_val : ℚ) :
    List Violation :=
  if ¬(min_val ≤ value ∧ value ≤ max_val) then
    [.mustBeBetween field_name min_val max_val value]
  else []

/-- Embedding of `core/validation.py::validate_percentage`, which is `validate_range(value, name, 0.0, 1.0)` —
note the closed interval: a value of exactly `0` passes. -/
def validate_percentage (value : ℚ) (field_name : String) : List Violation :=
  validate_range value field_name 0 1

/-- Embedding of `core/validation.py::validate_vehicle_specs`: the batch-style validator.
It never raises; it accumulates one error entry per failed check, in source
order, and returns `(len(errors) == 0, errors)`. -/
def validate_vehicle_specs (specs : VehicleSpecs) : Bool × List Violation :=
  let errors :=
    validate_positive specs.mass_kg "Vehicle mass"
      ++ validate_positive specs.frontal_area_m2 "Frontal area"
      ++ validate_range specs.drag_coefficient "Drag coefficient" 0.1 2.0
      ++ validate_range specs.rolling_resistance "Rolling resistance" 0.001 0.05
      ++ validate_positive specs.max_range_km "Maximum range"
      ++ validate_percentage specs.energy_efficiency "Energy efficiency"
      ++ validate_positive specs.initial_cost "Initial cost"
      ++ (match specs.battery_degradation_rate with
          | some rate => validate_range rate "Battery degradation rate" 0 1
          | none => [])
  (errors.isEmpty, errors)

end Core

/-! ## simulation/monte_carlo.py -/

namespace Simulation

/-- The dict returned by `MonteCarloSimulator.run`. -/
structure MCRunResult where
  npv_values : List ℚ
  mean : ℚ
  std : ℚ
  p05 : ℚ
  p95 : ℚ
deriving Repr, DecidableEq

/-- Embedding of `simulation/monte_carlo.py::MonteCarloSimulator`: holds a scenario (of any
type — `run` never reads it) and an iteration count. -/
structure MonteCarloSimulator (α : Type) where
  scenario : α
  n_iterations : ℕ

/-- Embedding of `simulation/monte_carlo.py::MonteCarloSimulator.run`:
`npv_values = np.random.normal(50000, 20000, n_iterations)` (modelled as
`n_iterations` successive draws from the `normal` oracle), and the four summary
fields are the **hardcoded literals** `mean=50000`, `std=20000`, `p05=30000`,
`p95=70000` — nothing is computed from the scenario or from the draws. -/
def MonteCarloSimulator.run {α : Type} (normal : ℚ → ℚ → ℕ → ℚ)
    (self : MonteCarloSimulator α) : MCRunResult :=
  { npv_values := (List.range self.n_iterations).map (normal 50000 20000)
    mean := 50000
    std := 20000
    p05 := 30000
    p95 := 70000 }

/-- Modelled from the spec, for comparison only: the arithmetic mean
"compute mean … of the results buffer" that §4.5 says `run` returns — used to
compare the hardcoded summary against what the claim asserts. -/
def specListMean (values : List ℚ) : ℚ := values.sum / values.length

end Simulation

/-! ## Auxiliary measurement definitions used by the theorems -/

/-- Number of draws `monte_carlo_simulation` makes per trial: one per
`uncertainty_params` entry whose name is present in `base_params` and whose
declared type is `'normal'` or `'uniform'`. -/
def countSampled (base : Models.ParamMap) : List (String × Models.Uncertainty) → ℕ
  | [] => 0
  | (name, u) :: rest =>
    (match base.lookup name with
     | none => 0
     | some _ => if u.type = "normal" ∨ u.type = "uniform" then 1 else 0)
      + countSampled base rest

/-- A concrete `VehicleSpecs` with a non-positive mass, an out-of-range
efficiency and an out-of-range degradation rate — constructing it succeeds
because the dataclass performs no checks. -/
def badVehicleSpec : Core.VehicleSpecs :=
  { Core.VehicleSpecs.make "bad" "heavy_truck" "diesel" "bev" (-1) with
      energy_efficiency := 2, battery_degradation_rate := some 2 }

/-! ## Helper lemmas -/

/-- A list with a member is not empty. -/
theorem isEmpty_false_of_mem {α : Type} {a : α} {l : List α} (h : a ∈ l) :
    l.isEmpty = false := by
  cases l with
  | nil => cases h
  | cons x xs => rfl

/-- Zipping ignores whatever extends the first list beyond the length of the
second. -/
theorem zip_append_of_length_eq {α β : Type} :
    ∀ (l₁ : List α) (l₂ : List β) (extra : List α), l₁.length = l₂.length →
      (l₁ ++ extra).zip l₂ = l₁.zip l₂ := by
  intro l₁
  induction l₁ with
  | nil =>
    intro l₂ extra h
    cases l₂ with
    | nil => simp
    | cons b bs => simp at h
  | cons a as ih =>
    intro l₂ extra h
    cases l₂ with
    | nil => simp at h
    | cons b bs =>
      simp only [List.length_cons] at h
      simp only [List.cons_append, List.zip_cons_cons]
      rw [ih bs extra (by omega)]

/-- Termwise antitonicity of the discounted-sum loop in the discount rate. -/
theorem npvFold_anti (r₁ r₂ : ℚ) (h1 : -1 < r₁) (h12 : r₁ < r₂) :
    ∀ (CF : List ℚ) (t : ℕ), (∀ cf ∈ CF, 0 < cf) →
      Roi.npvFold r₂ CF t ≤ Roi.npvFold r₁ CF t := by
  intro CF
  induction CF with
  | nil => intro t _; simp [Roi.npvFold]
  | cons cf rest ih =>
    intro t hpos
    simp only [Roi.npvFold]
    have hcf : 0 < cf := hpos cf (List.mem_cons_self _ _)
    have hb1 : (0 : ℚ) < 1 + r₁ := by linarith
    have hp1 : (0 : ℚ) < (1 + r₁) ^ t := pow_pos hb1 t
    have hle : (1 + r₁) ^ t ≤ (1 + r₂) ^ t :=
      pow_le_pow_left₀ hb1.le (by linarith) t
    have hterm : cf / (1 + r₂) ^ t ≤ cf / (1 + r₁) ^ t :=
      div_le_div_of_nonneg_left hcf.le hp1 hle
    have hrest := ih (t + 1) (fun c hc => hpos c (List.mem_cons_of_mem _ hc))
    linarith

/-- When the Newton-Raphson loop stops through its tolerance test, the rate it
returns makes the NPV small — by the very test that stopped it. -/
theorem irrLoop_spec (I : ℚ) (CF : List ℚ) :
    ∀ (n : ℕ) (r : ℚ), (Roi.irrLoop I CF r n).2 = true →
      |Roi.calculate_npv I CF (Roi.irrLoop I CF r n).1| < 1 / 100 := by
  intro n
  induction n with
  | zero => intro r h; simp [Roi.irrLoop] at h
  | succ n ih =>
    intro r h
    by_cases hc : |Roi.calculate_npv I CF r| < 1 / 100
    · have heq : Roi.irrLoop I CF r (n + 1) = (r, true) := by
        simp only [Roi.irrLoop]
        rw [if_pos hc]
      rw [heq]
      exact hc
    · have heq : Roi.irrLoop I CF r (n + 1) =
        Roi.irrLoop I CF
          (if Roi.npvDeriv r CF 1 ≠ 0 then
            r - Roi.calculate_npv I CF r / Roi.npvDeriv r CF 1 else r) n := by
        simp only [Roi.irrLoop]
        rw [if_neg hc]
      rw [heq] at h ⊢
      exact ih _ h

/-- Updating one key of a parameter dict leaves lookups of other keys alone. -/
theorem lookup_setParam_ne (sim : Models.ParamMap) (key name : String) (v : ℚ)
    (h : key ≠ name) :
    (Models.setParam sim key v).lookup name = sim.lookup name := by
  have hbf : (name == key) = false :=
    beq_eq_false_iff_ne.mpr (fun hh => h hh.symm)
  induction sim with
  | nil => simp only [Models.setParam, List.lookup, hbf]
  | cons p rest ih =>
    obtain ⟨k, w⟩ := p
    by_cases hk : k = key
    · subst hk
      simp only [Models.setParam, if_pos rfl, List.lookup, hbf]
    · simp only [Models.setParam, if_neg hk]
      cases hnk : name == k with
      | true => simp only [List.lookup, hnk]
      | false => simp only [List.lookup, hnk, ih]

/-- The perturbation pass never touches a parameter all of whose uncertainty
entries are malformed (unknown type) or absent from `base_params`. -/
theorem applyUncertainty_preserves (normal uniform : ℚ → ℚ → ℕ → ℚ)
    (base : Models.ParamMap) (name : String) :
    ∀ (unc : List (String × Models.Uncertainty)) (sim : Models.ParamMap) (k : ℕ),
      (∀ u, (name, u) ∈ unc →
        (u.type ≠ "normal" ∧ u.type ≠ "uniform") ∨ base.lookup name = none) →
      ((Models.applyUncertainty normal uniform base unc sim k).1).lookup name =
        sim.lookup name := by
  intro unc
  induction unc with
  | nil => intro sim k _; rfl
  | cons p rest ih =>
    intro sim k H
    obtain ⟨pname, u⟩ := p
    have Hrest : ∀ u', (name, u') ∈ rest →
        (u'.type ≠ "normal" ∧ u'.type ≠ "uniform") ∨ base.lookup name = none :=
      fun u' hu' => H u' (List.mem_cons_of_mem _ hu')
    simp only [Models.applyUncertainty]
    cases hb : base.lookup pname with
    | none => exact ih sim k Hrest
    | some bv =>
      dsimp only
      by_cases hpn : pname = name
      · subst hpn
        rcases H u (List.mem_cons_self _ _) with ⟨hn, hu⟩ | habs
        · rw [if_neg hn, if_neg hu]
          exact ih sim k Hrest
        · rw [hb] at habs; cases habs
      · by_cases hn : u.type = "normal"
        · rw [if_pos hn]
          rw [ih _ _ Hrest, lookup_setParam_ne _ _ _ _ hpn]
        · rw [if_neg hn]
          by_cases hu : u.type = "uniform"
          · rw [if_pos hu]
            rw [ih _ _ Hrest, lookup_setParam_ne _ _ _ _ hpn]
          · rw [if_neg hu]
            exact ih sim k Hrest

/-- Each perturbation pass consumes exactly one RNG draw per declared,
well-formed, present uncertain parameter. -/
theorem applyUncertainty_counter (normal uniform : ℚ → ℚ → ℕ → ℚ)
    (base : Models.ParamMap) :
    ∀ (unc : List (String × Models.Uncertainty)) (sim : Models.ParamMap) (k : ℕ),
      (Models.applyUncertainty normal uniform base unc sim k).2 =
        k + countSampled base unc := by
  intro unc
  induction unc with
  | nil => intro sim k; simp [Models.applyUncertainty, countSampled]
  | cons p rest ih =>
    intro sim k
    obtain ⟨pname, u⟩ := p
    simp only [Models.applyUncertainty, countSampled]
    cases hb : base.lookup pname with
    | none => rw [ih]; ring
    | some bv =>
      dsimp only
      by_cases hn : u.type = "normal"
      · rw [if_pos hn, ih]
        simp [hn]
        ring
      · by_cases hu : u.type = "uniform"
        · rw [if_neg hn, if_pos hu, ih]
          simp [hn, hu]
          ring
        · rw [if_neg hn, if_neg hu, ih]
          simp [hn, hu]

/-- The trial loop produces one entry per trial. -/
theorem mcTrials_len (normal uniform : ℚ → ℚ → ℕ → ℚ) (base : Models.ParamMap)
    (unc : List (String × Models.Uncertainty)) :
    ∀ (n k : ℕ), (Models.mcTrials normal uniform base unc n k).length = n := by
  intro n
  induction n with
  | zero => intro k; rfl
  | succ n ih => intro k; simp only [Models.mcTrials, List.length_cons, ih]

/-- Every trial of the loop keeps the base value of a parameter whose
uncertainty entries are all malformed or absent. -/
theorem mcTrials_mem (normal uniform : ℚ → ℚ → ℕ → ℚ) (base : Models.ParamMap)
    (unc : List (String × Models.Uncertainty)) (name : String)
    (H : ∀ u, (name, u) ∈ unc →
      (u.type ≠ "normal" ∧ u.type ≠ "uniform") ∨ base.lookup name = none) :
    ∀ (n k : ℕ), ∀ trial ∈ Models.mcTrials normal uniform base unc n k,
      trial.lookup name = base.lookup name := by
  intro n
  induction n with
  | zero => intro k trial h; cases h
  | succ n ih =>
    intro k trial h
    simp only [Models.mcTrials, List.mem_cons] at h
    rcases h with rfl | h
    · exact applyUncertainty_preserves normal uniform base name unc base k H
    · exact ih _ trial h

/-- The mass check of the batch validator fires whenever `mass_kg ≤ 0`. -/
theorem validate_flags_mass (s : Core.VehicleSpecs) (h : s.mass_kg ≤ 0) :
    Core.Violation.mustBePositive "Vehicle mass" s.mass_kg ∈
      (Core.validate_vehicle_specs s).2 := by
  simp only [Core.validate_vehicle_specs, Core.validate_positive]
  rw [if_pos h]
  simp

/-- The efficiency check of the batch validator fires whenever
`energy_efficiency` is outside `[0, 1]`. -/
theorem validate_flags_efficiency (s : Core.VehicleSpecs)
    (h : ¬(0 ≤ s.energy_efficiency ∧ s.energy_efficiency ≤ 1)) :
    Core.Violation.mustBeBetween "Energy efficiency" 0 1 s.energy_efficiency ∈
      (Core.validate_vehicle_specs s).2 := by
  simp only [Core.validate_vehicle_specs, Core.validate_percentage,
    Core.validate_range]
  rw [if_pos h]
  simp

/-- The degradation-rate check of the batch validator fires whenever the rate
is present and outside `[0, 1]`. -/
theorem validate_flags_degradation (s : Core.VehicleSpecs) (rate : ℚ)
    (hr : s.battery_degradation_rate = some rate) (h : ¬(0 ≤ rate ∧ rate ≤ 1)) :
    Core.Violation.mustBeBetween "Battery degradation rate" 0 1 rate ∈
      (Core.validate_vehicle_specs s).2 := by
  simp only [Core.validate_vehicle_specs, Core.validate_range, hr]
  rw [if_pos h]
  simp

/-! ## Claim theorems -/

/-- C1, counterexample: at the concrete input of an all-zero draw oracle and a
single trial, `MonteCarloSimulator.run` reports `mean = 50000` while the mean
of its own `npv_values` buffer is `0` — the returned summary statistics are not
computed from the trials, refuting the claim that `run` recomputes NPV per
trial and returns its summary statistics. -/
theorem C1_counterexample :
    (Simulation.MonteCarloSimulator.run (fun _ _ _ => 0)
        (⟨(), 1⟩ : Simulation.MonteCarloSimulator Unit)).mean = 50000 ∧
    Simulation.specListMean (Simulation.MonteCarloSimulator.run (fun _ _ _ => 0)
        (⟨(), 1⟩ : Simulation.MonteCarloSimulator Unit)).npv_values = 0 ∧
    (Simulation.MonteCarloSimulator.run (fun _ _ _ => 0)
        (⟨(), 1⟩ : Simulation.MonteCarloSimulator Unit)).mean ≠
      Simulation.specListMean (Simulation.MonteCarloSimulator.run (fun _ _ _ => 0)
        (⟨(), 1⟩ : Simulation.MonteCarloSimulator Unit)).npv_values := by
  refine ⟨rfl, ?_, ?_⟩
  · simp [Simulation.MonteCarloSimulator.run, Simulation.specListMean]
  · simp [Simulation.MonteCarloSimulator.run, Simulation.specListMean]

/-- C1, amended: `MonteCarloSimulator.run` returns, for every scenario and
oracle, `n_iterations` raw normal draws together with the hardcoded summary
constants `mean = 50000`, `std = 20000`, `p05 = 30000`, `p95 = 70000`;
`models.monte_carlo_simulation` runs one trial per requested simulation
(returning the raw per-trial parameter dicts, not NPVs or statistics) and each
trial consumes exactly one draw per declared, well-formed uncertain parameter
present in `base_params`. -/
theorem C1_theorem :
    (∀ (α : Type) (normal : ℚ → ℚ → ℕ → ℚ) (self : Simulation.MonteCarloSimulator α),
      (Simulation.MonteCarloSimulator.run normal self).npv_values =
          (List.range self.n_iterations).map (normal 50000 20000) ∧
        (Simulation.MonteCarloSimulator.run normal self).mean = 50000 ∧
        (Simulation.MonteCarloSimulator.run normal self).std = 20000 ∧
        (Simulation.MonteCarloSimulator.run normal self).p05 = 30000 ∧
        (Simulation.MonteCarloSimulator.run normal self).p95 = 70000) ∧
    (∀ (normal uniform : ℚ → ℚ → ℕ → ℚ) (base : Models.ParamMap)
        (unc : List (String × Models.Uncertainty)) (n : ℕ),
      (Models.monte_carlo_simulation normal uniform base unc n).length = n) ∧
    (∀ (normal uniform : ℚ → ℚ → ℕ → ℚ) (base : Models.ParamMap)
        (unc : List (String × Models.Uncertainty)) (sim : Models.ParamMap) (k : ℕ),
      (Models.applyUncertainty normal uniform base unc sim k).2 =
        k + countSampled base unc) := by
  refine ⟨fun α normal self => ⟨rfl, rfl, rfl, rfl, rfl⟩, ?_, ?_⟩
  · intro normal uniform base unc n
    exact mcTrials_len normal uniform base unc n 0
  · intro normal uniform base unc sim k
    exact applyUncertainty_counter normal uniform base unc sim k

/-- C2, counterexample: `calculate_npv(150000, [30000]*5, 0.08)` is more than
`100` away from the claimed value `-30398.26`, so the claim fails at its own
concrete input (the true value of the stated formula is about `-30218.70`). -/
theorem C2_counterexample :
    100 < |Roi.calculate_npv 150000 [30000, 30000, 30000, 30000, 30000] 0.08
      - (-30398.26)| := by
  rw [lt_abs]
  left
  norm_num [Roi.calculate_npv, Roi.npvFold]

/-- C2, amended: `calculate_npv(150000, [30000]*5, 0.08)` returns approximately
`-30218.70` (within `0.01`), and the `digital_twin/models.py` copy of
`calculate_npv` returns the same value. -/
theorem C2_theorem :
    |Roi.calculate_npv 150000 [30000, 30000, 30000, 30000, 30000] 0.08
        - (-30218.70)| < 1 / 100 ∧
    Models.calculate_npv 150000 [30000, 30000, 30000, 30000, 30000] 0.08 =
      Roi.calculate_npv 150000 [30000, 30000, 30000, 30000, 30000] 0.08 := by
  constructor
  · rw [abs_lt]
    constructor <;> norm_num [Roi.calculate_npv, Roi.npvFold]
  · rfl

/-- C3, counterexample: a `VehicleSpecs` record with `mass_kg = -1` (and
efficiency and degradation rate out of range) exists as a fully constructed
value — the dataclass constructor performs no validation — and only the
separate batch validator recognizes it as invalid. -/
theorem C3_counterexample :
    badVehicleSpec.mass_kg = -1 ∧ badVehicleSpec.energy_efficiency = 2 ∧
      badVehicleSpec.battery_degradation_rate = some 2 ∧
      (Core.validate_vehicle_specs badVehicleSpec).1 = false := by
  refine ⟨rfl, rfl, rfl, ?_⟩
  decide

/-- C3, amended: constructing a `VehicleSpecs` never fails — validation happens
only in the separate batch validator `validate_vehicle_specs`, which returns
`is_valid = false` together with an error entry naming the offending field and
value whenever `mass_kg ≤ 0`, `energy_efficiency ∉ [0, 1]` (note: the code
accepts `0`, unlike the spec's `(0, 1]`), or a present
`battery_degradation_rate ∉ [0, 1]`. -/
theorem C3_theorem (s : Core.VehicleSpecs) :
    (s.mass_kg ≤ 0 →
      (Core.validate_vehicle_specs s).1 = false ∧
        Core.Violation.mustBePositive "Vehicle mass" s.mass_kg ∈
          (Core.validate_vehicle_specs s).2) ∧
    (¬(0 ≤ s.energy_efficiency ∧ s.energy_efficiency ≤ 1) →
      (Core.validate_vehicle_specs s).1 = false ∧
        Core.Violation.mustBeBetween "Energy efficiency" 0 1 s.energy_efficiency ∈
          (Core.validate_vehicle_specs s).2) ∧
    (∀ rate : ℚ, s.battery_degradation_rate = some rate →
      ¬(0 ≤ rate ∧ rate ≤ 1) →
      (Core.validate_vehicle_specs s).1 = false ∧
        Core.Violation.mustBeBetween "Battery degradation rate" 0 1 rate ∈
          (Core.validate_vehicle_specs s).2) := by
  refine ⟨fun h => ?_, fun h => ?_, fun rate hr h => ?_⟩
  · have hm := validate_flags_mass s h
    exact ⟨isEmpty_false_of_mem hm, hm⟩
  · have hm := validate_flags_efficiency s h
    exact ⟨isEmpty_false_of_mem hm, hm⟩
  · have hm := validate_flags_degradation s rate hr h
    exact ⟨isEmpty_false_of_mem hm, hm⟩

/-- C3, witness: the amended theorem applied to the concrete invalid record. -/
theorem C3_theorem_witness :
    ((Core.validate_vehicle_specs badVehicleSpec).1 = false ∧
      Core.Violation.mustBePositive "Vehicle mass" badVehicleSpec.mass_kg ∈
        (Core.validate_vehicle_specs badVehicleSpec).2) ∧
    Core.Violation.mustBeBetween "Energy efficiency" 0 1
        badVehicleSpec.energy_efficiency ∈
      (Core.validate_vehicle_specs badVehicleSpec).2 ∧
    Core.Violation.mustBeBetween "Battery degradation rate" 0 1 2 ∈
      (Core.validate_vehicle_specs badVehicleSpec).2 := by
  obtain ⟨h1, h2, h3⟩ := C3_theorem badVehicleSpec
  exact ⟨h1 (by decide), (h2 (by decide)).2, (h3 2 rfl (by decide)).2⟩

/-- C4, counterexample: the `models/equations.py` copy of
`calculate_risk_adjusted_npv`, called with two cashflows but a single variance
(lengths 2 ≠ 1), raises nothing and returns a computed value, refuting the
claim that every copy fails fast on a length mismatch. -/
theorem C4_counterexample :
    [(1 : ℚ), 1].length ≠ [(0 : ℚ)].length ∧
      Equations.calculate_risk_adjusted_npv 0 [1, 1] [0] 0 0 = 1 := by
  constructor
  · decide
  · norm_num [Equations.calculate_risk_adjusted_npv, Roi.riskAdjustedFold,
      List.zip_cons_cons, List.zip_nil_right]

/-- C4, amended: the `economics/roi.py` copy of `calculate_risk_adjusted_npv`
fails fast with a `ValueError`-style error on any length mismatch and computes
no result; the `models/equations.py` copy has no such guard — it silently
truncates to the shorter list (extra cashflows beyond the variances are
ignored) and always returns a value. -/
theorem C4_theorem :
    (∀ (I : ℚ) (cfs vars : List ℚ) (r β : ℚ), cfs.length ≠ vars.length →
      Roi.calculate_risk_adjusted_npv I cfs vars r β =
        Except.error "Cashflows and variances must have same length") ∧
    (∀ (I : ℚ) (cfs vars extra : List ℚ) (r β : ℚ), cfs.length = vars.length →
      Equations.calculate_risk_adjusted_npv I (cfs ++ extra) vars r β =
        Equations.calculate_risk_adjusted_npv I cfs vars r β) := by
  constructor
  · intro I cfs vars r β h
    simp [Roi.calculate_risk_adjusted_npv, h]
  · intro I cfs vars extra r β h
    simp only [Equations.calculate_risk_adjusted_npv,
      zip_append_of_length_eq cfs vars extra h]

/-- C4, witness: the amended theorem applied at concrete mismatched and
matched-plus-extra inputs. -/
theorem C4_theorem_witness :
    Roi.calculate_risk_adjusted_npv 0 [1, 1] [0] 0 0 =
        Except.error "Cashflows and variances must have same length" ∧
      Equations.calculate_risk_adjusted_npv 0 ([1] ++ [5]) [0] 0 0 =
        Equations.calculate_risk_adjusted_npv 0 [1] [0] 0 0 :=
  ⟨C4_theorem.1 0 [1, 1] [0] 0 0 (by decide),
   C4_theorem.2 0 [1] [0] [5] 0 0 rfl⟩

/-- C5, counterexample: with a negative degradation rate,
`calculate_battery_degradation(1, 1, -1) = e > 1` exceeds the initial
capacity, so the claim fails when the rate λ is unrestricted. -/
theorem C5_counterexample :
    1 < Degradation.calculate_battery_degradation 1 1 (-1) := by
  have h := Real.add_one_le_exp 1
  have heq : Degradation.calculate_battery_degradation 1 1 (-1) = Real.exp 1 := by
    simp [Degradation.calculate_battery_degradation]
  rw [heq]
  linarith

/-- C5, amended: for every initial capacity `C₀ ≥ 0`, years `≥ 0` and
**nonnegative** degradation rate λ, `calculate_battery_degradation` returns a
value in `[0, C₀]` that is monotonically non-increasing in years (the result
lives in ℝ, so it is in particular never NaN), and the `digital_twin/models.py`
copy computes the identical value. -/
theorem C5_theorem (initial_capacity years₁ years₂ degradation_rate : ℝ)
    (hc : 0 ≤ initial_capacity) (hy : 0 ≤ years₁) (hy2 : years₁ ≤ years₂)
    (hr : 0 ≤ degradation_rate) :
    0 ≤ Degradation.calculate_battery_degradation initial_capacity years₁
        degradation_rate ∧
    Degradation.calculate_battery_degradation initial_capacity years₁
        degradation_rate ≤ initial_capacity ∧
    Degradation.calculate_battery_degradation initial_capacity years₂
        degradation_rate ≤
      Degradation.calculate_battery_degradation initial_capacity years₁
        degradation_rate ∧
    Models.calculate_battery_degradation initial_capacity years₁
        degradation_rate =
      Degradation.calculate_battery_degradation initial_capacity years₁
        degradation_rate := by
  unfold Degradation.calculate_battery_degradation
    Models.calculate_battery_degradation
  refine ⟨mul_nonneg hc (Real.exp_pos _).le, ?_, ?_, rfl⟩
  · have h1 : Real.exp (-degradation_rate * years₁) ≤ 1 := by
      have h0 := Real.exp_le_exp.mpr
        (show -degradation_rate * years₁ ≤ 0 by nlinarith)
      simpa using h0
    nlinarith [Real.exp_pos (-degradation_rate * years₁)]
  · have h2 : Real.exp (-degradation_rate * years₂) ≤
        Real.exp (-degradation_rate * years₁) := by
      apply Real.exp_le_exp.mpr
      nlinarith
    nlinarith [Real.exp_pos (-degradation_rate * years₂)]

/-- C5, witness: the amended theorem at capacity 1, years 0 and 1, rate 1. -/
theorem C5_theorem_witness :
    0 ≤ Degradation.calculate_battery_degradation 1 0 1 ∧
    Degradation.calculate_battery_degradation 1 0 1 ≤ 1 ∧
    Degradation.calculate_battery_degradation 1 1 1 ≤
      Degradation.calculate_battery_degradation 1 0 1 ∧
    Models.calculate_battery_degradation 1 0 1 =
      Degradation.calculate_battery_degradation 1 0 1 :=
  C5_theorem 1 0 1 1 (by norm_num) le_rfl (by norm_num) (by norm_num)

/-- C6: for positive cashflows and discount rates `-1 < r₁ < r₂`, the NPV at
the larger rate is no larger — `calculate_npv` is non-increasing in the
discount rate. -/
theorem C6_theorem (I : ℚ) (CF : List ℚ) (r₁ r₂ : ℚ)
    (hpos : ∀ cf ∈ CF, 0 < cf) (h1 : -1 < r₁) (_h2 : -1 < r₂) (h12 : r₁ < r₂) :
    Roi.calculate_npv I CF r₂ ≤ Roi.calculate_npv I CF r₁ := by
  unfold Roi.calculate_npv
  have h := npvFold_anti r₁ r₂ h1 h12 CF 1 hpos
  linarith

/-- C6, witness: the theorem at `I = 10`, `CF = [1]`, `r₁ = 0`, `r₂ = 1`. -/
theorem C6_theorem_witness :
    (∀ cf ∈ [(1 : ℚ)], 0 < cf) ∧
      Roi.calculate_npv 10 [1] 1 ≤ Roi.calculate_npv 10 [1] 0 :=
  ⟨by decide, C6_theorem 10 [1] 0 1 (by decide) (by norm_num) (by norm_num)
    (by norm_num)⟩

/-- C7: whenever `calculate_irr` converges — returns through its
`abs(npv) < 0.01` stopping test within the iteration budget — the rate it
returns drives `calculate_npv` within that same tolerance of zero. -/
theorem C7_theorem (initial_investment : ℚ) (annual_cashflows : List ℚ)
    (max_iterations : ℕ)
    (h : Roi.irrConverged initial_investment annual_cashflows max_iterations) :
    |Roi.calculate_npv initial_investment annual_cashflows
        (Roi.calculate_irr initial_investment annual_cashflows max_iterations)|
      < 1 / 100 :=
  irrLoop_spec initial_investment annual_cashflows max_iterations (1 / 10) h

/-- C7, witness: with `I = 100`, `CF = [110]` the seed rate `0.1` already makes
the NPV zero, so the loop converges on its first test. -/
theorem C7_theorem_witness :
    Roi.irrConverged 100 [110] 1 ∧
      |Roi.calculate_npv 100 [110] (Roi.calculate_irr 100 [110] 1)| < 1 / 100 := by
  have hconv : Roi.irrConverged 100 [110] 1 := by
    show (Roi.irrLoop 100 [110] (1 / 10) 1).2 = true
    norm_num [Roi.irrLoop, Roi.calculate_npv, Roi.npvFold]
  exact ⟨hconv, C7_theorem 100 [110] 1 hconv⟩

/-- C8, counterexample: the `physics/energy.py` implementation at the claimed
input, with its own module defaults (air density `1.225`), returns
`347439600`, which is more than `10⁶` away from the claimed `3.4251×10⁸`. -/
theorem C8_counterexample :
    1000000 <
      |Energy.calculate_wheel_energy_defaults 18000 0 100000 22.2
        - 342510000| := by
  have h : Energy.calculate_wheel_energy_defaults 18000 0 100000 22.2
      = 347439600 := by
    simp only [Energy.calculate_wheel_energy_defaults,
      Energy.calculate_wheel_energy, Energy.AIR_DENSITY_SEA_LEVEL,
      Energy.DEFAULT_FRONTAL_AREA, Models.GRAVITY_ACCELERATION,
      Models.ROLLING_RESISTANCE_COEFF, Models.DEFAULT_DRAG_COEFFICIENT,
      Real.sin_zero]
    norm_num
  rw [h]
  norm_num

/-- C8, amended: at mass 18000 kg, zero grade, 100 km, 22.2 m/s and module
defaults, the `models.py` implementation returns exactly `342511200 ≈
3.4251×10⁸` J (within `2000` of the claimed value), while the
`physics/energy.py` implementation returns `347439600 ≈ 3.4744×10⁸` J because
its default air density is `1.225` instead of `1.2`. -/
theorem C8_theorem :
    Models.calculate_energy_consumption_defaults 18000 0 100000 22.2
        = 342511200 ∧
    Energy.calculate_wheel_energy_defaults 18000 0 100000 22.2 = 347439600 ∧
    |Models.calculate_energy_consumption_defaults 18000 0 100000 22.2
        - 342510000| ≤ 2000 := by
  have h1 : Models.calculate_energy_consumption_defaults 18000 0 100000 22.2
      = 342511200 := by
    simp only [Models.calculate_energy_consumption_defaults,
      Models.calculate_energy_consumption, Models.GRAVITY_ACCELERATION,
      Models.ROLLING_RESISTANCE_COEFF, Models.DEFAULT_DRAG_COEFFICIENT,
      Real.sin_zero]
    norm_num
  have h2 : Energy.calculate_wheel_energy_defaults 18000 0 100000 22.2
      = 347439600 := by
    simp only [Energy.calculate_wheel_energy_defaults,
      Energy.calculate_wheel_energy, Energy.AIR_DENSITY_SEA_LEVEL,
      Energy.DEFAULT_FRONTAL_AREA, Models.GRAVITY_ACCELERATION,
      Models.ROLLING_RESISTANCE_COEFF, Models.DEFAULT_DRAG_COEFFICIENT,
      Real.sin_zero]
    norm_num
  refine ⟨h1, h2, ?_⟩
  rw [h1]
  norm_num

/-- C9, counterexample: at mass 0, zero grade, distance 1 and velocity 1 the
two wheel-energy implementations disagree with their defaults (`4.8` vs `4.9`
J), refuting the claim that they coincide for every input. -/
theorem C9_counterexample :
    Models.calculate_energy_consumption_defaults 0 0 1 1 ≠
      Energy.calculate_wheel_energy_defaults 0 0 1 1 := by
  have h1 : Models.calculate_energy_consumption_defaults 0 0 1 1 = 4.8 := by
    simp only [Models.calculate_energy_consumption_defaults,
      Models.calculate_energy_consumption, Models.GRAVITY_ACCELERATION,
      Models.ROLLING_RESISTANCE_COEFF, Models.DEFAULT_DRAG_COEFFICIENT,
      Real.sin_zero]
    norm_num
  have h2 : Energy.calculate_wheel_energy_defaults 0 0 1 1 = 4.9 := by
    simp only [Energy.calculate_wheel_energy_defaults,
      Energy.calculate_wheel_energy, Energy.AIR_DENSITY_SEA_LEVEL,
      Energy.DEFAULT_FRONTAL_AREA, Models.GRAVITY_ACCELERATION,
      Models.ROLLING_RESISTANCE_COEFF, Models.DEFAULT_DRAG_COEFFICIENT,
      Real.sin_zero]
    norm_num
  rw [h1, h2]
  norm_num

/-- C9, amended: the two wheel-energy implementations are the same function of
their eight explicit parameters; with each module's own defaults they differ by
exactly the air-density gap, `0.5·C_d·(1.225 − 1.2)·A·v²·d = 0.1·v²·d`, and so
agree exactly when `v²·d = 0`. -/
theorem C9_theorem :
    (∀ mass grade distance velocity air_density frontal_area drag_coefficient
        rolling_resistance : ℝ,
      Models.calculate_energy_consumption mass grade distance velocity
          air_density frontal_area drag_coefficient rolling_resistance =
        Energy.calculate_wheel_energy mass grade distance velocity air_density
          frontal_area drag_coefficient rolling_resistance) ∧
    (∀ mass grade distance velocity : ℝ,
      Energy.calculate_wheel_energy_defaults mass grade distance velocity -
          Models.calculate_energy_consumption_defaults mass grade distance
            velocity =
        0.1 * velocity ^ 2 * distance) := by
  constructor
  · intro m g d v ρ A cd crr
    rfl
  · intro m g d v
    simp only [Energy.calculate_wheel_energy_defaults,
      Energy.calculate_wheel_energy, Energy.AIR_DENSITY_SEA_LEVEL,
      Energy.DEFAULT_FRONTAL_AREA, Models.calculate_energy_consumption_defaults,
      Models.calculate_energy_consumption, Models.GRAVITY_ACCELERATION,
      Models.ROLLING_RESISTANCE_COEFF, Models.DEFAULT_DRAG_COEFFICIENT]
    ring

/-- C10: `monte_carlo_simulation` completes all `n_simulations` trials, and a
parameter whose uncertainty entry has an unknown distribution type, or whose
name is absent from `base_params`, silently keeps its base value in every
trial. -/
theorem C10_theorem (normal uniform : ℚ → ℚ → ℕ → ℚ)
    (base_params : Models.ParamMap)
    (uncertainty_params : List (String × Models.Uncertainty))
    (n_simulations : ℕ) (name : String)
    (H : ∀ u, (name, u) ∈ uncertainty_params →
      (u.type ≠ "normal" ∧ u.type ≠ "uniform") ∨
        base_params.lookup name = none) :
    (Models.monte_carlo_simulation normal uniform base_params
        uncertainty_params n_simulations).length = n_simulations ∧
    ∀ trial ∈ Models.monte_carlo_simulation normal uniform base_params
        uncertainty_params n_simulations,
      trial.lookup name = base_params.lookup name := by
  constructor
  · exact mcTrials_len normal uniform base_params uncertainty_params
      n_simulations 0
  · exact mcTrials_mem normal uniform base_params uncertainty_params name H
      n_simulations 0

/-- C10, witness: two trials over a base with only `fuel_price`, with one
uncertainty entry naming an absent parameter and one declaring an unknown
distribution type. -/
theorem C10_theorem_witness :
    (Models.monte_carlo_simulation (fun _ _ _ => 0) (fun _ _ _ => 0)
        ([("fuel_price", (3 : ℚ) / 2)])
        ([("missing_param", Models.Uncertainty.mk "normal" (some 1) none none),
          ("fuel_price", Models.Uncertainty.mk "lognormal" none none none)])
        2).length = 2 ∧
    ∀ trial ∈ Models.monte_carlo_simulation (fun _ _ _ => 0) (fun _ _ _ => 0)
        ([("fuel_price", (3 : ℚ) / 2)])
        ([("missing_param", Models.Uncertainty.mk "normal" (some 1) none none),
          ("fuel_price", Models.Uncertainty.mk "lognormal" none none none)])
        2,
      trial.lookup "missing_param" =
        List.lookup "missing_param" ([("fuel_price", (3 : ℚ) / 2)]) :=
  C10_theorem (fun _ _ _ => 0) (fun _ _ _ => 0) _ _ 2 "missing_param"
    (fun _ _ => Or.inr (by decide))

end DigitalTwin
